import Mathlib

/-!
Shallow embedding of the WHO SMART demo repository
(`who_logic.py`, `main.py`, `who-mcp.py`): pregnancy and child
registration, EDD calculation, ANC visit scheduling, ANC visit risk
analysis, immunization scheduling and growth monitoring, together with
proofs of the behavioural claims about them.

Dates are modelled as proleptic Gregorian calendar dates; Python
`timedelta` day arithmetic is day-stepping on the calendar, Python
`dateutil.relativedelta` month arithmetic is calendar-month addition
with day-of-month clamping, exactly as the library implements it.
Python floats in the immunization table and in growth monitoring are
modelled as rationals: every constant appearing in the source
(1.5, 2.5, 3.5, 0.5, 30, 30.4375) is exactly representable in binary
floating point, so rational arithmetic agrees with the float
arithmetic the source performs on them.
-/

namespace WhoMcp

/-- Proleptic Gregorian calendar date, modelling Python `datetime` values
(the repository only ever uses the date part). -/
structure Date where
  year : Nat
  month : Nat
  day : Nat
deriving DecidableEq, Repr

/-- Gregorian leap-year rule, as used by Python `datetime`. -/
def isLeapYear (y : Nat) : Bool :=
  y % 4 == 0 && (y % 100 != 0 || y % 400 == 0)

/-- Number of days in month `m` of year `y`. -/
def daysInMonth (y m : Nat) : Nat :=
  if m = 2 then (if isLeapYear y then 29 else 28)
  else if m = 4 ∨ m = 6 ∨ m = 9 ∨ m = 11 then 30
  else 31

/-- A well-formed calendar date (what `datetime.strptime` can produce). -/
def Date.Valid (d : Date) : Prop :=
  1 ≤ d.month ∧ d.month ≤ 12 ∧ 1 ≤ d.day ∧ d.day ≤ daysInMonth d.year d.month

instance (d : Date) : Decidable d.Valid := by
  unfold Date.Valid; infer_instance

/-- The day after `d`. -/
def Date.next (d : Date) : Date :=
  if d.day < daysInMonth d.year d.month then ⟨d.year, d.month, d.day + 1⟩
  else if d.month < 12 then ⟨d.year, d.month + 1, 1⟩
  else ⟨d.year + 1, 1, 1⟩

/-- The day before `d`. -/
def Date.prev (d : Date) : Date :=
  if 1 < d.day then ⟨d.year, d.month, d.day - 1⟩
  else if 1 < d.month then ⟨d.year, d.month - 1, daysInMonth d.year (d.month - 1)⟩
  else ⟨d.year - 1, 12, 31⟩

/-- `d + timedelta(days=n)`. -/
def Date.addDays : Date → Nat → Date
  | d, 0 => d
  | d, n + 1 => Date.addDays d.next n

/-- `d - timedelta(days=n)`. -/
def Date.subDays : Date → Nat → Date
  | d, 0 => d
  | d, n + 1 => Date.subDays d.prev n

/-- Days from the start of year `y` to the start of month `m`
(used by the proleptic-Gregorian ordinal below). -/
def daysBeforeMonth (y m : Nat) : Nat :=
  (List.range (m - 1)).foldl (fun acc i => acc + daysInMonth y (i + 1)) 0

/-- Python `date.toordinal()`: day number in the proleptic Gregorian
calendar, with day 1 = 0001-01-01.  Subtracting two `datetime` values
and taking `.days` is the difference of their ordinals. -/
def Date.toOrdinal (d : Date) : Nat :=
  365 * (d.year - 1) + (d.year - 1) / 4 - (d.year - 1) / 100 + (d.year - 1) / 400
    + daysBeforeMonth d.year d.month + d.day

/-- `relativedelta(months=k)` applied to `d`: calendar-month addition,
clamping the day of month to the length of the target month
(`dateutil` replaces the day with `min(day, monthlen)`). -/
def Date.addMonths (d : Date) (k : Nat) : Date :=
  let t := d.month - 1 + k
  let y := d.year + t / 12
  let m := t % 12 + 1
  ⟨y, m, min d.day (daysInMonth y m)⟩

/- ------------------------------------------------------------------
ANC: EDD calculation and visit scheduling (`who_logic.py` 113-198,
identical arithmetic in `main.py` 203-317).
------------------------------------------------------------------ -/

/-- Output record of `calculate_edd_logic` (the fields the claims are
about; the constant `calculation_method` string is elided). -/
structure EddResult where
  lmp_date : Date
  estimated_delivery_date : Date
deriving DecidableEq, Repr

/-- `calculate_edd_logic` on an already-parsed LMP date:
`edd_date = lmp_date + timedelta(days=280)`. -/
def calculate_edd_logic (lmp : Date) : EddResult :=
  { lmp_date := lmp, estimated_delivery_date := lmp.addDays 280 }

/-- The fixed visit-week table `visit_weeks` of `schedule_anc_visits_logic`. -/
def visitWeeks : List (Nat × String) :=
  [ (12, "First contact: Up to 12 weeks"),
    (20, "Second contact: 20 weeks"),
    (26, "Third contact: 26 weeks"),
    (30, "Fourth contact: 30 weeks"),
    (34, "Fifth contact: 34 weeks"),
    (36, "Sixth contact: 36 weeks"),
    (38, "Seventh contact: 38 weeks"),
    (40, "Eighth contact: 40 weeks (or around EDD)") ]

/-- One CarePlan activity entry: its description and its scheduled
period (start date, end date). -/
structure Activity where
  description : String
  start : Date
  stop : Date
deriving DecidableEq, Repr

/-- The activity list built by the `for` loop of
`schedule_anc_visits_logic`: `visit_date = lmp_date + timedelta(weeks=weeks)`
(a week is exactly 7 days in `timedelta`), window end one day later. -/
def ancActivities (lmp : Date) : List Activity :=
  visitWeeks.map fun p =>
    let visit := lmp.addDays (7 * p.1)
    ⟨p.2, visit, visit.addDays 1⟩

/-- Output CarePlan of `schedule_anc_visits_logic` (claim-relevant
fields: the LMP/EDD period bounds and the activity list). -/
structure AncCarePlan where
  lmp : Date
  edd : Date
  activities : List Activity
deriving DecidableEq, Repr

/-- `schedule_anc_visits_logic` on already-parsed optional dates:
if neither date is given it returns the 400 error; if `lmp_date` is
given, `edd_date = lmp_date + 280 days`; otherwise
`lmp_date = edd_date - 280 days`.  The activity list is built from the
resulting `lmp_date` in both cases. -/
def schedule_anc_visits_logic : Option Date → Option Date → Except String AncCarePlan
  | none, none => .error "Either LMP date or EDD date must be provided"
  | some lmp, _ => .ok ⟨lmp, lmp.addDays 280, ancActivities lmp⟩
  | none, some edd => .ok ⟨edd.subDays 280, edd, ancActivities (edd.subDays 280)⟩

/- ------------------------------------------------------------------
Child health: immunization schedule (`who_logic.py` 314-401 and the
HTTP endpoint `get_immunization_schedule` in `main.py` 469-577).
------------------------------------------------------------------ -/

/-- One row of the fixed `immunization_plan` table: vaccine name, age
offset in (possibly fractional) months, dose label.  The `age_months`
floats of the source (0, 1.5, 2.5, 3.5, 9, 15, 18) are all exactly
representable, so rationals model them without error. -/
structure ImmEntry where
  vaccine : String
  age_months : ℚ
  dose : String
deriving DecidableEq, Repr

/-- The fixed 20-row `immunization_plan` table (identical in
`who_logic.py` 330-351 and `main.py` 491-512). -/
def immunization_plan : List ImmEntry :=
  [ ⟨"BCG", 0, "Birth dose"⟩,
    ⟨"OPV-0", 0, "Birth dose"⟩,
    ⟨"Hepatitis B - Birth", 0, "Birth dose"⟩,
    ⟨"Pentavalent-1 (DTP-HepB-Hib)", 1.5, "1st dose (6 weeks)"⟩,
    ⟨"OPV-1", 1.5, "1st dose (6 weeks)"⟩,
    ⟨"PCV-1", 1.5, "1st dose (6 weeks)"⟩,
    ⟨"Rotavirus-1", 1.5, "1st dose (6 weeks)"⟩,
    ⟨"Pentavalent-2", 2.5, "2nd dose (10 weeks)"⟩,
    ⟨"OPV-2", 2.5, "2nd dose (10 weeks)"⟩,
    ⟨"PCV-2", 2.5, "2nd dose (10 weeks)"⟩,
    ⟨"Rotavirus-2", 2.5, "2nd dose (10 weeks)"⟩,
    ⟨"Pentavalent-3", 3.5, "3rd dose (14 weeks)"⟩,
    ⟨"OPV-3", 3.5, "3rd dose (14 weeks)"⟩,
    ⟨"PCV-3", 3.5, "3rd dose (14 weeks)"⟩,
    ⟨"IPV-1", 3.5, "1st dose (14 weeks)"⟩,
    ⟨"Measles-Mumps-Rubella (MMR) - 1", 9, "1st dose"⟩,
    ⟨"Vitamin A - 1", 9, "1st dose"⟩,
    ⟨"Measles-Mumps-Rubella (MMR) - 2", 15, "2nd dose"⟩,
    ⟨"DTP Booster 1", 18, "Booster (1.5 years)"⟩,
    ⟨"OPV Booster 1", 18, "Booster (1.5 years)"⟩ ]

/-- Fractional part of a rational, Python `q % 1` for nonnegative `q`. -/
def fracPart (q : ℚ) : ℚ := q - ⌊q⌋

/-- `who_logic.py` line 359: `int((age_months % 1) * 30.4375)`
(the table offsets are nonnegative, so `int()` truncation is `⌊⌋`). -/
def fracDays_logic (am : ℚ) : Nat := (⌊fracPart am * (30.4375 : ℚ)⌋).toNat

/-- `main.py` line 518: `int((age_months % 1) * 30)` — the HTTP surface
converts a fractional month at 30 days, not 30.4375. -/
def fracDays_main (am : ℚ) : Nat := (⌊fracPart am * (30 : ℚ)⌋).toNat

/-- `who_logic.py` line 360:
`dob + relativedelta(months=int(age_months), days=int((age_months % 1) * 30.4375))`
(`relativedelta` applies the month shift first, clamping the day of
month, then adds the days). -/
def vaccineDate_logic (dob : Date) (am : ℚ) : Date :=
  (dob.addMonths (⌊am⌋.toNat)).addDays (fracDays_logic am)

/-- `main.py` line 518: same month shift, fractional month at 30 days. -/
def vaccineDate_main (dob : Date) (am : ℚ) : Date :=
  (dob.addMonths (⌊am⌋.toNat)).addDays (fracDays_main am)

/-- One immunization CarePlan activity: description
(`vaccine - dose`) and the scheduled period (start, start + 7 days). -/
structure ImmActivity where
  description : String
  start : Date
  stop : Date
deriving DecidableEq, Repr

/-- The activity list built by `get_immunization_schedule_logic`
(`who_logic.py` 356-388). -/
def immActivities_logic (dob : Date) : List ImmActivity :=
  immunization_plan.map fun it =>
    let vd := vaccineDate_logic dob it.age_months
    ⟨it.vaccine ++ " - " ++ it.dose, vd, vd.addDays 7⟩

/-- The activity list built by the HTTP endpoint
`get_immunization_schedule` (`main.py` 517-552, fallback path). -/
def immActivities_main (dob : Date) : List ImmActivity :=
  immunization_plan.map fun it =>
    let vd := vaccineDate_main dob it.age_months
    ⟨it.vaccine ++ " - " ++ it.dose, vd, vd.addDays 7⟩

/-- Top-level keys of the CarePlan dict returned by
`get_immunization_schedule_logic` (`who_logic.py` 390-400). -/
def immCarePlanKeys_logic : List String :=
  ["resourceType", "id", "status", "intent", "title", "description",
   "subject", "activity", "instantiatesCanonical"]

/-- Top-level keys of the fallback CarePlan dict returned by the HTTP
endpoint `get_immunization_schedule` (`main.py` 566-576): it has no
`description` key. -/
def immCarePlanKeys_main : List String :=
  ["resourceType", "id", "status", "intent", "title",
   "subject", "activity", "instantiatesCanonical"]

/- ------------------------------------------------------------------
Child health: growth monitoring (`who_logic.py` 443-550 and the HTTP
endpoint `growth_monitoring` in `main.py` 634-762).
------------------------------------------------------------------ -/

/-- Result record of growth monitoring: the computed age and the three
interpretation texts and codes, plus the overall status note
(the echoed measurements and FHIR wrapper fields are elided). -/
structure GrowthResult where
  age_in_days : Int
  wfa_text : String
  wfa_code : String
  hfa_text : String
  hfa_code : String
  wfh_text : String
  wfh_code : String
  overall_note : String
deriving DecidableEq, Repr

/-- The overall status string for normal growth (`who_logic.py` 535). -/
def normalNote : String :=
  "Child growth appears normal based on provided measurements (simplified assessment)."

/-- The overall status string when some indicator is abnormal
(`who_logic.py` 533). -/
def assessNote : String :=
  "Further assessment needed if any indicators are abnormal."

/-- Weight-for-age interpretation (text, code), `who_logic.py` 489-494 =
`main.py` 700-705: Low when `age_in_months < 60` and
`weight < 2 + 0.5 * age_in_months`, else Normal. -/
def wfaInterp (am w : ℚ) : String × String :=
  if am < 60 ∧ w < 2 + (0.5 : ℚ) * am then ("Underweight (potential)", "L")
  else ("Normal weight-for-age", "N")

/-- Height-for-age interpretation (text, code), `who_logic.py` 501-506 =
`main.py` 714-719: Low when `age_in_months < 60` and
`height < 50 + age_in_months`, else Normal. -/
def hfaInterp (am h : ℚ) : String × String :=
  if am < 60 ∧ h < 50 + am then ("Stunted (potential)", "L")
  else ("Normal height-for-age", "N")

/-- Weight-for-height interpretation on the logic/tool surface
(`who_logic.py` 513-525): when `height > 0` the BMI-like ratio is
compared against 15 and 25; when `height ≤ 0` the code is the
insufficient-evidence code `IE` and no division is performed. -/
def wfhInterp_logic (am w h : ℚ) : String × String :=
  if 0 < h then
    if w / ((h / 100) ^ 2) < 15 ∧ 6 < am then ("Wasting (potential)", "L")
    else if 25 < w / ((h / 100) ^ 2) ∧ 24 < am then ("Overweight (potential)", "H")
    else ("Normal weight-for-height", "N")
  else ("Cannot calculate weight-for-height due to invalid height", "IE")

/-- Weight-for-height interpretation on the HTTP surface
(`main.py` 728-736): both guarded branches require `height > 0`
(the `and` short-circuits, so no division by zero is evaluated), and
there is no insufficient-evidence branch — `height ≤ 0` leaves the
initialized Normal code. -/
def wfhInterp_main (am w h : ℚ) : String × String :=
  if 0 < h ∧ w / ((h / 100) ^ 2) < 15 ∧ 6 < am then ("Wasting (potential)", "L")
  else if 0 < h ∧ 25 < w / ((h / 100) ^ 2) ∧ 24 < am then ("Overweight (potential)", "H")
  else ("Normal weight-for-height", "N")

/-- One FHIR coding entry as built by `create_codeable_concept`
(`who_logic.py` 28-33). -/
structure Coding where
  system : String
  code : String
  display : String
deriving DecidableEq, Repr

/-- A CodeableConcept dict as built by `create_codeable_concept`
(`who_logic.py` 28-33): its only top-level keys are `coding` and
`text`; the interpretation code sits nested at the `code` field of the
head of `coding`. -/
structure CodeableConcept where
  coding : List Coding
  text : String
deriving DecidableEq, Repr

/-- A Python dict `.get` of the top-level key `code` on a
CodeableConcept dict: the dict has only the keys `coding` and `text`,
so the lookup misses and yields `None` for every CodeableConcept. -/
def CodeableConcept.getCodeKey : CodeableConcept → Option String :=
  fun _ => none

/-- The code-system string used for the three growth interpretations. -/
def interpSystem : String :=
  "http://terminology.hl7.org/CodeSystem/v3-ObservationInterpretation"

/-- The observation/overall part of `growth_monitoring_logic` for a
given age in days: `age_in_months = age_in_days / 30.4375`.  The
overall note (`who_logic.py` 533-535) is guarded by an `all()` over
the observations whose interpretation dict has a truthy top-level
`code` entry — but each interpretation entry is the CodeableConcept
built by `create_codeable_concept`, whose top-level keys are only
`coding` and `text`, so that lookup yields None for every observation,
the filtered generator is empty, and the `all()` is vacuously true:
the logic surface always emits the normal-growth note. -/
def growthRecord_logic (age : Int) (w h : ℚ) : GrowthResult :=
  let am : ℚ := (age : ℚ) / (30.4375 : ℚ)
  let wfa := wfaInterp am w
  let hfa := hfaInterp am h
  let wfh := wfhInterp_logic am w h
  let interpretations : List CodeableConcept :=
    [⟨[⟨interpSystem, wfa.2, wfa.1⟩], wfa.1⟩,
     ⟨[⟨interpSystem, hfa.2, hfa.1⟩], hfa.1⟩,
     ⟨[⟨interpSystem, wfh.2, wfh.1⟩], wfh.1⟩]
  ⟨age, wfa.1, wfa.2, hfa.1, hfa.2, wfh.1, wfh.2,
    if (interpretations.filter (fun cc => cc.getCodeKey.isSome)).all
        (fun cc => cc.getCodeKey == some "N")
    then normalNote else assessNote⟩

/-- The observation/overall part of the HTTP `growth_monitoring`
endpoint (`main.py` 744-747).  On the fallback path the first
comprehension checks that every interpretation text starts with
"Normal" while the second comprehension is emptied by its
`if FHIR_RESOURCES_AVAILABLE` filter, so its `all()` is vacuously true
and the whole `or` condition is always true. -/
def growthRecord_main (age : Int) (w h : ℚ) : GrowthResult :=
  let am : ℚ := (age : ℚ) / (30.4375 : ℚ)
  let wfa := wfaInterp am w
  let hfa := hfaInterp am h
  let wfh := wfhInterp_main am w h
  ⟨age, wfa.1, wfa.2, hfa.1, hfa.2, wfh.1, wfh.2,
    if ([wfa.1, hfa.1, wfh.1].all (fun t => t.startsWith "Normal")) = true ∨ True
    then normalNote else assessNote⟩

/-- `growth_monitoring_logic` (`who_logic.py` 443-550) on parsed
inputs.  `gender` is the already-lowercased gender string (the source
applies `.lower()` before the membership test); an age in days below
zero is rejected (`who_logic.py` 468-470). -/
def growth_monitoring_logic (dob mdate : Date) (weight height : ℚ)
    (gender : String) : Except String GrowthResult :=
  if gender ≠ "male" ∧ gender ≠ "female" then
    .error "Gender must be male or female"
  else
    let age_in_days : Int := (mdate.toOrdinal : Int) - (dob.toOrdinal : Int)
    if age_in_days < 0 then
      .error "Measurement date cannot be before date of birth."
    else
      .ok (growthRecord_logic age_in_days weight height)

/-- The HTTP endpoint `growth_monitoring` (`main.py` 634-762, fallback
path) on parsed inputs: same gender check, but no negative-age check —
`age_in_days` is used as computed (`main.py` 662-663). -/
def growth_monitoring_main (dob mdate : Date) (weight height : ℚ)
    (gender : String) : Except String GrowthResult :=
  if gender ≠ "male" ∧ gender ≠ "female" then
    .error "Gender must be male or female"
  else
    let age_in_days : Int := (mdate.toOrdinal : Int) - (dob.toOrdinal : Int)
    .ok (growthRecord_main age_in_days weight height)

/-- Projection used by counterexamples: the weight-for-age code and the
overall note of a growth-monitoring response, when it is a success. -/
def growthWfaOverall (e : Except String GrowthResult) : Option (String × String) :=
  e.toOption.map fun r => (r.wfa_code, r.overall_note)

/-- Projection used by counterexamples: the computed age in days of a
growth-monitoring response, when it is a success. -/
def growthAge (e : Except String GrowthResult) : Option Int :=
  e.toOption.map GrowthResult.age_in_days

/-- Projection used by counterexamples: the weight-for-height code of a
growth-monitoring response, when it is a success. -/
def growthWfhCode (e : Except String GrowthResult) : Option String :=
  e.toOption.map GrowthResult.wfh_code

/- ------------------------------------------------------------------
ANC: visit risk analysis (`who_logic.py` 237-279, the HTTP endpoint
`analyze_anc_visit_data` in `main.py` 370-416, and the MCP tool
wrapper in `who-mcp.py` 38-41).
------------------------------------------------------------------ -/

/-- A value stored under a key of a Python dict: the key may be absent,
present with value `None`, or present with a real value.  (The MCP tool
wrapper passes `None` for omitted parameters, so the distinction
between an absent key and a `None` value is observable.) -/
inductive Field (α : Type) where
  | missing
  | null
  | val (a : α)
deriving DecidableEq, Repr

/-- The vitals sub-dict of an analyze-visit input: optional numeric
blood-pressure readings. -/
structure Vitals where
  bp_systolic : Option Int
  bp_diastolic : Option Int
deriving DecidableEq, Repr

/-- The symptoms sub-dict of an analyze-visit input; the bleeding flag
triggers only when it is exactly `True`. -/
structure Symptoms where
  bleeding : Option Bool
deriving DecidableEq, Repr

/-- An analyze-visit input dict (the unused `patient_id` is elided). -/
structure AnalyzeInput where
  vitals : Field Vitals
  symptoms : Field Symptoms
deriving DecidableEq, Repr

/-- A risk entry appended by the analysis; the synthetic no-risk entry
has no `risk_code` key, modelled as `none`. -/
structure RiskFlag where
  risk_code : Option String
  description : String
  severity : String
deriving DecidableEq, Repr

/-- The claim-relevant part of the analysis response. -/
structure AnalysisResult where
  risks_identified : List RiskFlag
  recommendations : List String
deriving DecidableEq, Repr

/-- The blood-pressure risk entry (`who_logic.py` 251-255). -/
def ancHighBpFlag : RiskFlag :=
  ⟨some "ANC_HIGH_BP", "Elevated blood pressure, potential for pre-eclampsia.", "high"⟩

/-- The bleeding risk entry (`who_logic.py` 263-267). -/
def ancBleedingFlag : RiskFlag :=
  ⟨some "ANC_BLEEDING", "Patient reports bleeding.", "high"⟩

/-- The synthetic low-severity no-risk entry (`who_logic.py` 271). -/
def noRiskFlag : RiskFlag :=
  ⟨none, "No immediate high-risk factors identified based on this limited data.", "low"⟩

/-- Recommendation attached to the blood-pressure flag. -/
def bpRecommendation : String :=
  "Immediate follow-up with a clinician for blood pressure assessment."

/-- Recommendation attached to the bleeding flag. -/
def bleedingRecommendation : String :=
  "Urgent assessment for cause of bleeding."

/-- The generic recommendation attached to the no-risk entry. -/
def genericRecommendation : String :=
  "Continue routine ANC care as per schedule. Reinforce education on danger signs."

/-- Python truthiness of an optional integer reading: `None` and `0`
are falsy. -/
def truthyInt : Option Int → Bool
  | none => false
  | some n => n != 0

/-- The pure part of `analyze_anc_visit_data_logic` once the readings
have been extracted (`who_logic.py` 242-279): the blood-pressure block
runs only when both readings are truthy (`if bp_systolic and
bp_diastolic`), then compares `int(..) >= 140` / `>= 90`; the bleeding
block requires the symptom to be exactly `True`; if nothing triggered,
the synthetic no-risk flag and generic recommendation are appended. -/
def analysisCore (sys dia : Option Int) (bleeding : Option Bool) : AnalysisResult :=
  let bp : List RiskFlag × List String :=
    if truthyInt sys && truthyInt dia then
      if 140 ≤ sys.getD 0 ∨ 90 ≤ dia.getD 0 then ([ancHighBpFlag], [bpRecommendation])
      else ([], [])
    else ([], [])
  let bleed : List RiskFlag × List String :=
    if bleeding = some true then ([ancBleedingFlag], [bleedingRecommendation])
    else ([], [])
  let risks := bp.1 ++ bleed.1
  let recs := bp.2 ++ bleed.2
  if risks = [] then ⟨[noRiskFlag], [genericRecommendation]⟩
  else ⟨risks, recs⟩

/-- The vitals lookup with an empty-dict default followed by the
blood-pressure field lookups: an absent vitals key defaults to the
empty dict whose lookups give `None`; a vitals key present with value
`None` raises AttributeError (NoneType has no `.get` method); a dict
yields its fields. -/
def readVitals : Field Vitals → Except String (Option Int × Option Int)
  | .missing => .ok (none, none)
  | .null => .error "AttributeError: NoneType object has no attribute get"
  | .val v => .ok (v.bp_systolic, v.bp_diastolic)

/-- The symptoms lookup with an empty-dict default followed by the
bleeding field lookup, with the same absent/None/dict behaviour as
`readVitals`. -/
def readBleeding : Field Symptoms → Except String (Option Bool)
  | .missing => .ok none
  | .null => .error "AttributeError: NoneType object has no attribute get"
  | .val s => .ok s.bleeding

/-- `analyze_anc_visit_data_logic` (`who_logic.py` 237-279): reads the
vitals (which can raise), reads the bleeding symptom (which can
raise), then accumulates flags.  An uncaught AttributeError is
modelled as the error case. -/
def analyze_anc_visit_data_logic (inp : AnalyzeInput) : Except String AnalysisResult := do
  let v ← readVitals inp.vitals
  let bleeding? ← readBleeding inp.symptoms
  pure (analysisCore v.1 v.2 bleeding?)

/-- The MCP tool wrapper `analyze_anc_visit_data` (`who-mcp.py` 38-41):
omitted parameters default to `None` and are passed through in the
dict, so the logic layer sees the keys present with value `None`. -/
def analyze_anc_visit_data_tool (vitals : Option Vitals) (symptoms : Option Symptoms) :
    Except String AnalysisResult :=
  analyze_anc_visit_data_logic
    ⟨match vitals with | none => .null | some v => .val v,
     match symptoms with | none => .null | some s => .val s⟩

/-- Projection used by C7: how many ANC_HIGH_BP flags and how many
blood-pressure recommendations a successful analysis response holds. -/
def bpFlagRecCount (e : Except String AnalysisResult) : Option (Nat × Nat) :=
  e.toOption.map fun r =>
    (r.risks_identified.countP (fun f => f.risk_code == some "ANC_HIGH_BP"),
     r.recommendations.countP (fun c => c == bpRecommendation))

/- ------------------------------------------------------------------
Registration (`who_logic.py` 37-78 `register_pregnancy_logic` and
284-311 `register_child_logic`).
------------------------------------------------------------------ -/

/-- The details dict passed to a registration call; any field may be
omitted. -/
structure PersonDetails where
  family_name : Option String
  given_name : Option String
  birth_date : Option String
  gender : Option String
deriving DecidableEq, Repr

/-- Claim-relevant fields of the Patient resource built by
`register_pregnancy_logic` (`who_logic.py` 50-61):
`patient_details.get("gender", "female")` always yields a string. -/
structure PregnancyPatient where
  family : Option String
  given : Option String
  birthDate : Option String
  gender : String
deriving DecidableEq, Repr

/-- Claim-relevant fields of the Patient resource built by
`register_child_logic` (`who_logic.py` 296-307):
`child_details.get("gender")` has no default, so the gender value may
be null. -/
structure ChildPatient where
  family : Option String
  given : Option String
  birthDate : Option String
  gender : Option String
deriving DecidableEq, Repr

/-- `register_pregnancy_logic`, restricted to the Patient fields the
claim is about (generated ids and the EpisodeOfCare wrapper are
elided). -/
def register_pregnancy_logic (pd : PersonDetails) : PregnancyPatient :=
  ⟨pd.family_name, pd.given_name, pd.birth_date, pd.gender.getD "female"⟩

/-- `register_child_logic`, restricted to the Patient fields the claim
is about. -/
def register_child_logic (cd : PersonDetails) : ChildPatient :=
  ⟨cd.family_name, cd.given_name, cd.birth_date, cd.gender⟩

/- ------------------------------------------------------------------
Theorems.
------------------------------------------------------------------ -/

/-- `relativedelta(months=0)` on a well-formed date is the identity
(the clamp `min day (daysInMonth ..)` is a no-op). -/
theorem Date.addMonths_zero (d : Date) (h : d.Valid) : d.addMonths 0 = d := by
  obtain ⟨h1, h2, h3, h4⟩ := h
  have hlt : d.month - 1 < 12 := by omega
  simp only [Date.addMonths, Nat.add_zero, Nat.div_eq_of_lt hlt, Nat.mod_eq_of_lt hlt]
  have hm : d.month - 1 + 1 = d.month := by omega
  rw [hm]
  cases d
  simp_all [Nat.min_eq_left h4]

/-- The overall note of the logic-surface growth record is always the
normal text: the guard filters on a top-level `code` key that the
CodeableConcept dict never carries, so its `all()` is vacuously true. -/
theorem growthRecord_logic_overall (a : Int) (w h : ℚ) :
    (growthRecord_logic a w h).overall_note = normalNote := by
  simp [growthRecord_logic, CodeableConcept.getCodeKey]

/-- The overall note of the HTTP-surface growth record is always the
normal text (the `or` condition is vacuously true). -/
theorem growthRecord_main_overall (a : Int) (w h : ℚ) :
    (growthRecord_main a w h).overall_note = normalNote := by
  simp [growthRecord_main]

/-- C1.  For every valid LMP date D, `calculate_edd` returns D + 280 days,
and `schedule_anc_visits(lmp_date=D)` produces exactly 8 entries whose
start dates are D + 7w days for the week table [12,20,26,30,34,36,38,40],
in that order. -/
theorem C1_edd_and_anc_schedule (D : Date) :
    (calculate_edd_logic D).estimated_delivery_date = D.addDays 280 ∧
    schedule_anc_visits_logic (some D) none =
      .ok ⟨D, D.addDays 280, ancActivities D⟩ ∧
    (ancActivities D).length = 8 ∧
    (ancActivities D).map Activity.start =
      [12, 20, 26, 30, 34, 36, 38, 40].map (fun w => D.addDays (7 * w)) := by
  refine ⟨?_, ?_, rfl, ?_⟩
  · simp only [calculate_edd_logic]
  · simp only [schedule_anc_visits_logic]
  · simp only [ancActivities, visitWeeks, List.map]

/-- C2.  For every valid date of birth, the immunization schedule has
exactly 20 activity entries, in the order of the fixed vaccine table,
and every birth-dose row (age_months = 0) is scheduled exactly on the
date of birth. -/
theorem C2_immunization_schedule (dob : Date) (h : dob.Valid) :
    (immActivities_logic dob).length = 20 ∧
    (immActivities_logic dob).map ImmActivity.description =
      immunization_plan.map (fun it => it.vaccine ++ " - " ++ it.dose) ∧
    ∀ it ∈ immunization_plan, it.age_months = 0 →
      vaccineDate_logic dob it.age_months = dob := by
  refine ⟨rfl, ?_, ?_⟩
  · simp only [immActivities_logic, immunization_plan, List.map]
  · intro it _ h0
    rw [h0]
    have h1 : fracDays_logic 0 = 0 := by norm_num [fracDays_logic, fracPart]
    have h2 : ((⌊(0 : ℚ)⌋).toNat) = 0 := by norm_num
    rw [vaccineDate_logic, h1, h2]
    show (dob.addMonths 0) = dob
    exact Date.addMonths_zero dob h

/-- C2 witness: the schedule properties hold at the concrete valid
date of birth 2020-05-17. -/
theorem C2_immunization_schedule_witness :
    (Date.Valid ⟨2020, 5, 17⟩) ∧
    ((immActivities_logic ⟨2020, 5, 17⟩).length = 20 ∧
      (immActivities_logic ⟨2020, 5, 17⟩).map ImmActivity.description =
        immunization_plan.map (fun it => it.vaccine ++ " - " ++ it.dose) ∧
      ∀ it ∈ immunization_plan, it.age_months = 0 →
        vaccineDate_logic ⟨2020, 5, 17⟩ it.age_months = ⟨2020, 5, 17⟩) :=
  ⟨by decide, C2_immunization_schedule ⟨2020, 5, 17⟩ (by decide)⟩

/-- C3 is refuted: the two surfaces do not produce outputs with
identical field names — the HTTP fallback CarePlan omits the
`description` key that the tool-surface CarePlan carries.  (The key
lists are input-independent in the source, so this refutes the claim
for every input.) -/
theorem C3_counterexample_keys : immCarePlanKeys_main ≠ immCarePlanKeys_logic := by
  decide

/-- C3 amended: for every date of birth the two surfaces produce
identical activity entries — in particular equal scheduled vaccine
dates for all 20 entries, the 30.4375- and 30-day fractional-month
conversions agreeing on every table offset — but the top-level
CarePlan dicts do not have identical field names (the HTTP fallback
omits `description`). -/
theorem C3_surfaces_dates_agree_keys_differ (dob : Date) :
    immActivities_main dob = immActivities_logic dob ∧
    immCarePlanKeys_main ≠ immCarePlanKeys_logic := by
  constructor
  · simp only [immActivities_main, immActivities_logic, immunization_plan, List.map,
      vaccineDate_main, vaccineDate_logic]
    norm_num [fracDays_main, fracDays_logic, fracPart]
  · decide

/-- C9.  For every date E, `schedule_anc_visits(edd_date=E)` produces the
same visit schedule (same entry dates, descriptions and order) as
`schedule_anc_visits(lmp_date = E - 280 days)`. -/
theorem C9_edd_lmp_consistency (E : Date) :
    ∃ p q, schedule_anc_visits_logic none (some E) = .ok p ∧
      schedule_anc_visits_logic (some (E.subDays 280)) none = .ok q ∧
      p.activities = q.activities := by
  refine ⟨⟨E.subDays 280, E, ancActivities (E.subDays 280)⟩,
    ⟨E.subDays 280, (E.subDays 280).addDays 280, ancActivities (E.subDays 280)⟩,
    ?_, ?_, rfl⟩
  · simp only [schedule_anc_visits_logic]
  · simp only [schedule_anc_visits_logic]

/-- C4 is refuted on the HTTP surface: for dob 2020-01-01, measurement
date 2021-01-01, weight 1 kg, height 100 cm, gender female, the
weight-for-age code is `L` yet the HTTP endpoint reports the overall
normal-growth text. -/
theorem C4_counterexample_http_always_normal :
    growthWfaOverall (growth_monitoring_main ⟨2020, 1, 1⟩ ⟨2021, 1, 1⟩ 1 100 "female") =
      some ("L", normalNote) := by
  have hage : ((Date.toOrdinal ⟨2021, 1, 1⟩ : Int) - Date.toOrdinal ⟨2020, 1, 1⟩) = 366 := by
    decide
  rw [growth_monitoring_main, if_neg (by decide)]
  simp only [hage, growthWfaOverall, growthRecord_main, Except.toOption, Option.map]
  rw [wfaInterp, if_pos (by norm_num)]
  simp

/-- C4 amended: neither surface implements the claimed rule — for
every input that passes validation, the logic/tool surface AND the
HTTP surface both report the overall normal-growth note regardless of
the three interpretation codes.  The logic-surface guard filters on a
top-level `code` key that the interpretation CodeableConcept never
has, and the HTTP-surface guard contains a comprehension emptied by
its availability filter, so both `all()` checks are vacuously true. -/
theorem C4_overall_rule (dob mdate : Date) (w h : ℚ) (g : String)
    (hg : g = "male" ∨ g = "female") (hage : dob.toOrdinal ≤ mdate.toOrdinal) :
    (∃ r, growth_monitoring_logic dob mdate w h g = .ok r ∧
      r.overall_note = normalNote) ∧
    (∃ s, growth_monitoring_main dob mdate w h g = .ok s ∧
      s.overall_note = normalNote) := by
  have hg2 : ¬ (g ≠ "male" ∧ g ≠ "female") := by
    rcases hg with hg | hg <;> simp [hg]
  have hnn : ¬ ((mdate.toOrdinal : Int) - (dob.toOrdinal : Int) < 0) := by
    simp only [not_lt, sub_nonneg]
    exact_mod_cast hage
  refine ⟨⟨growthRecord_logic ((mdate.toOrdinal : Int) - (dob.toOrdinal : Int)) w h, ?_, ?_⟩,
    ⟨growthRecord_main ((mdate.toOrdinal : Int) - (dob.toOrdinal : Int)) w h, ?_, ?_⟩⟩
  · rw [growth_monitoring_logic, if_neg hg2]
    simp only [if_neg hnn]
  · exact growthRecord_logic_overall _ _ _
  · rw [growth_monitoring_main, if_neg hg2]
  · exact growthRecord_main_overall _ _ _

/-- C4 witness: both surfaces report the normal-growth note at dob
2020-01-01, measurement date 2021-01-01, weight 1 kg, height 100 cm,
gender female — an input whose weight-for-age code is Low. -/
theorem C4_overall_rule_witness :
    (∃ r, growth_monitoring_logic ⟨2020, 1, 1⟩ ⟨2021, 1, 1⟩ 1 100 "female" = .ok r ∧
      r.overall_note = normalNote) ∧
    (∃ s, growth_monitoring_main ⟨2020, 1, 1⟩ ⟨2021, 1, 1⟩ 1 100 "female" = .ok s ∧
      s.overall_note = normalNote) :=
  C4_overall_rule ⟨2020, 1, 1⟩ ⟨2021, 1, 1⟩ 1 100 "female" (Or.inr rfl) (by decide)

/-- C5 is refuted on the HTTP surface: with dob 2020-01-02 and
measurement date 2020-01-01 the HTTP endpoint does not fail — it
returns a result computed from the negative age -1. -/
theorem C5_counterexample_http_negative_age :
    growthAge (growth_monitoring_main ⟨2020, 1, 2⟩ ⟨2020, 1, 1⟩ 3 50 "female") =
      some (-1) := by
  have hage : ((Date.toOrdinal ⟨2020, 1, 1⟩ : Int) - Date.toOrdinal ⟨2020, 1, 2⟩) = -1 := by
    decide
  rw [growth_monitoring_main, if_neg (by decide)]
  simp only [hage, growthAge, growthRecord_main, Except.toOption, Option.map]

/-- C5 amended: when the measurement date precedes the date of birth,
the logic/tool surface fails with the invalid-range error, but the
HTTP surface silently returns a result whose age in days is negative. -/
theorem C5_negative_age (dob mdate : Date) (w h : ℚ) (g : String)
    (hg : g = "male" ∨ g = "female") (hlt : mdate.toOrdinal < dob.toOrdinal) :
    growth_monitoring_logic dob mdate w h g =
      .error "Measurement date cannot be before date of birth." ∧
    (∃ s, growth_monitoring_main dob mdate w h g = .ok s ∧ s.age_in_days < 0) := by
  have hg2 : ¬ (g ≠ "male" ∧ g ≠ "female") := by
    rcases hg with hg | hg <;> simp [hg]
  have hneg : ((mdate.toOrdinal : Int) - (dob.toOrdinal : Int)) < 0 := by
    simp only [sub_neg]
    exact_mod_cast hlt
  constructor
  · rw [growth_monitoring_logic, if_neg hg2]
    simp only [if_pos hneg]
  · refine ⟨growthRecord_main ((mdate.toOrdinal : Int) - (dob.toOrdinal : Int)) w h, ?_, ?_⟩
    · rw [growth_monitoring_main, if_neg hg2]
    · exact hneg

/-- C5 witness: the amended behaviour instantiated at dob 2020-01-02,
measurement date 2020-01-01, weight 3 kg, height 50 cm, gender female. -/
theorem C5_negative_age_witness :
    growth_monitoring_logic ⟨2020, 1, 2⟩ ⟨2020, 1, 1⟩ 3 50 "female" =
      .error "Measurement date cannot be before date of birth." ∧
    (∃ s, growth_monitoring_main ⟨2020, 1, 2⟩ ⟨2020, 1, 1⟩ 3 50 "female" = .ok s ∧
      s.age_in_days < 0) :=
  C5_negative_age ⟨2020, 1, 2⟩ ⟨2020, 1, 1⟩ 3 50 "female" (Or.inr rfl) (by decide)

/-- C6 is refuted on the HTTP surface: at height 0 the HTTP endpoint
reports the Normal weight-for-height code `N`, not the
insufficient-evidence code `IE`. -/
theorem C6_counterexample_http_height_zero :
    growthWfhCode (growth_monitoring_main ⟨2020, 1, 1⟩ ⟨2021, 1, 1⟩ 3 0 "female") =
      some "N" := by
  have hage : ((Date.toOrdinal ⟨2021, 1, 1⟩ : Int) - Date.toOrdinal ⟨2020, 1, 1⟩) = 366 := by
    decide
  rw [growth_monitoring_main, if_neg (by decide)]
  simp only [hage, growthWfhCode, growthRecord_main, Except.toOption, Option.map]
  rw [wfhInterp_main, if_neg (by norm_num), if_neg (by norm_num)]

/-- C6 amended: for height ≤ 0 the logic/tool surface yields the
insufficient-evidence code `IE` (and guards the division), while the
HTTP surface yields the Normal code `N` (its guards short-circuit, so
it also evaluates no division by zero); the claim holds only on the
tool surface. -/
theorem C6_height_nonpos (dob mdate : Date) (w h : ℚ) (g : String)
    (hg : g = "male" ∨ g = "female") (hage : dob.toOrdinal ≤ mdate.toOrdinal)
    (hh : h ≤ 0) :
    (∃ r, growth_monitoring_logic dob mdate w h g = .ok r ∧ r.wfh_code = "IE") ∧
    (∃ s, growth_monitoring_main dob mdate w h g = .ok s ∧ s.wfh_code = "N") := by
  have hg2 : ¬ (g ≠ "male" ∧ g ≠ "female") := by
    rcases hg with hg | hg <;> simp [hg]
  have hnn : ¬ ((mdate.toOrdinal : Int) - (dob.toOrdinal : Int) < 0) := by
    simp only [not_lt, sub_nonneg]
    exact_mod_cast hage
  refine ⟨⟨growthRecord_logic ((mdate.toOrdinal : Int) - (dob.toOrdinal : Int)) w h, ?_, ?_⟩,
    ⟨growthRecord_main ((mdate.toOrdinal : Int) - (dob.toOrdinal : Int)) w h, ?_, ?_⟩⟩
  · rw [growth_monitoring_logic, if_neg hg2]
    simp only [if_neg hnn]
  · show (wfhInterp_logic _ w h).2 = "IE"
    rw [wfhInterp_logic, if_neg (not_lt.mpr hh)]
  · rw [growth_monitoring_main, if_neg hg2]
  · show (wfhInterp_main _ w h).2 = "N"
    rw [wfhInterp_main, if_neg (fun hc => absurd hc.1 (not_lt.mpr hh)),
      if_neg (fun hc => absurd hc.1 (not_lt.mpr hh))]

/-- C6 witness: the amended behaviour instantiated at dob 2020-01-01,
measurement date 2020-06-01, weight 3 kg, height 0 cm, gender male. -/
theorem C6_height_nonpos_witness :
    (∃ r, growth_monitoring_logic ⟨2020, 1, 1⟩ ⟨2020, 6, 1⟩ 3 0 "male" = .ok r ∧
      r.wfh_code = "IE") ∧
    (∃ s, growth_monitoring_main ⟨2020, 1, 1⟩ ⟨2020, 6, 1⟩ 3 0 "male" = .ok s ∧
      s.wfh_code = "N") :=
  C6_height_nonpos ⟨2020, 1, 1⟩ ⟨2020, 6, 1⟩ 3 0 "male" (Or.inl rfl) (by decide)
    (le_refl 0)

/-- C7 is refuted: for vitals bp_systolic 150, bp_diastolic 0 the
claimed trigger condition holds (150 ≥ 140), yet no ANC_HIGH_BP flag
is emitted — Python truthiness treats the 0 reading as missing, so the
blood-pressure check is skipped and the synthetic no-risk output is
returned. -/
theorem C7_counterexample_zero_diastolic :
    ((140 : Int) ≤ 150 ∨ (90 : Int) ≤ 0) ∧
    analyze_anc_visit_data_logic ⟨.val ⟨some 150, some 0⟩, .missing⟩ =
      .ok ⟨[noRiskFlag], [genericRecommendation]⟩ := by
  constructor
  · left
    decide
  · rfl

/-- C7 amended: when both blood-pressure readings are present and
nonzero, exactly one ANC_HIGH_BP flag and exactly one blood-pressure
recommendation are emitted iff systolic ≥ 140 or diastolic ≥ 90, and
none otherwise; a zero reading disables the check (so the claim as
stated fails for zero-valued readings). -/
theorem C7_bp_flag_rule (s d : Int) (b : Option Bool) (hs : s ≠ 0) (hd : d ≠ 0) :
    bpFlagRecCount (analyze_anc_visit_data_logic ⟨.val ⟨some s, some d⟩, .val ⟨b⟩⟩) =
      some (if 140 ≤ s ∨ 90 ≤ d then 1 else 0,
        if 140 ≤ s ∨ 90 ≤ d then 1 else 0) := by
  have hstep : analyze_anc_visit_data_logic ⟨.val ⟨some s, some d⟩, .val ⟨b⟩⟩ =
      .ok (analysisCore (some s) (some d) b) := rfl
  rw [hstep]
  have hsb : truthyInt (some s) = true := by simp [truthyInt, hs]
  have hdb : truthyInt (some d) = true := by simp [truthyInt, hd]
  by_cases hbp : (140 : Int) ≤ s ∨ (90 : Int) ≤ d <;> by_cases hb : b = some true <;>
    simp only [analysisCore, hsb, hdb, hbp, hb, bpFlagRecCount, Bool.and_self, if_true,
      if_pos, if_neg, Option.map, Except.toOption, ite_true, ite_false, not_false_iff] <;>
    simp [hbp, hb, List.countP, List.countP.go, ancHighBpFlag, ancBleedingFlag,
      noRiskFlag, bpRecommendation, bleedingRecommendation, genericRecommendation]

/-- C7 witness: the amended rule instantiated at systolic 150,
diastolic 80, no bleeding symptom. -/
theorem C7_bp_flag_rule_witness :
    ((150 : Int) ≠ 0) ∧ ((80 : Int) ≠ 0) ∧
    bpFlagRecCount (analyze_anc_visit_data_logic ⟨.val ⟨some 150, some 80⟩, .val ⟨none⟩⟩) =
      some (if (140 : Int) ≤ 150 ∨ (90 : Int) ≤ 80 then 1 else 0,
        if (140 : Int) ≤ 150 ∨ (90 : Int) ≤ 80 then 1 else 0) :=
  ⟨by decide, by decide, C7_bp_flag_rule 150 80 none (by decide) (by decide)⟩

/-- C8.  The logic layer does return exactly one synthetic low-severity
no-risk flag and one generic recommendation when both keys are absent,
but the MCP tool wrapper called with both parameters omitted passes the
keys with value None; the vitals lookup with its empty-dict default
then returns None, whose `.get` raises AttributeError — the operation
crashes instead of returning the no-risk flag. -/
theorem C8_no_risk_flag_and_tool_crash :
    analyze_anc_visit_data_logic ⟨.missing, .missing⟩ =
      .ok ⟨[noRiskFlag], [genericRecommendation]⟩ ∧
    analyze_anc_visit_data_tool none none =
      .error "AttributeError: NoneType object has no attribute get" :=
  ⟨rfl, rfl⟩

/-- C10.  When the details omit the gender field, a pregnancy
registration defaults the Patient gender to female, while a child
registration applies no default and returns a null gender. -/
theorem C10_gender_defaults (pd : PersonDetails) (h : pd.gender = none) :
    (register_pregnancy_logic pd).gender = "female" ∧
    (register_child_logic pd).gender = none := by
  simp [register_pregnancy_logic, register_child_logic, h]

/-- C10 witness: the defaults at a concrete details record with no
gender field. -/
theorem C10_gender_defaults_witness :
    (PersonDetails.gender ⟨some "Smith", some "Jane", some "1990-01-01", none⟩ = none) ∧
    ((register_pregnancy_logic ⟨some "Smith", some "Jane", some "1990-01-01", none⟩).gender
        = "female" ∧
      (register_child_logic ⟨some "Smith", some "Jane", some "1990-01-01", none⟩).gender
        = none) :=
  ⟨rfl, C10_gender_defaults ⟨some "Smith", some "Jane", some "1990-01-01", none⟩ rfl⟩

end WhoMcp
